import Mathlib

/-!
Verification of the schedviz event-to-transition translation layer
(`analysis/sched_event_loader.go`).

The data model (thread transitions, the set builder, the string bank, the
value types) is declared but not defined in the translated source file; those
definitions are modelled from the specification, as marked on each one.
The event loaders themselves (`LoadSchedMigrateTask`, `LoadSwitchData`,
`LoadSchedSwitch`, `LoadSchedWakeup`, `LoadSchedSwitchWithSynthetics`) and the
registry (`newEventLoader`, `threadTransitions`) are translated directly from
the Go source.
-/

set_option maxHeartbeats 1000000

namespace Sched

/-- Modelled from the spec: thread/process identifier, opaque and
equality-comparable. -/
abbrev PID := Int

/-- Modelled from the spec: CPU identifier, same contract as PID. -/
abbrev CPUID := Int

/-- Modelled from the spec: thread run state, one of Unknown, Running,
Waiting, Sleeping. -/
inductive ThreadState where
  | UnknownState : ThreadState
  | RunningState : ThreadState
  | WaitingState : ThreadState
  | SleepingState : ThreadState
deriving DecidableEq

export ThreadState (UnknownState RunningState WaitingState SleepingState)

/-- Modelled from the spec: conflict policy attached to a transition channel;
Assert is the default, Drop and InsertSynthetic are the relaxations the
loaders in the source install. -/
inductive ConflictPolicy where
  | Assert : ConflictPolicy
  | Drop : ConflictPolicy
  | InsertSynthetic : ConflictPolicy
deriving DecidableEq

export ConflictPolicy (Assert Drop InsertSynthetic)

/-- Modelled from the spec: an integer-like priority with a distinguished
unknown sentinel. -/
inductive Priority where
  | unknownPriority : Priority
  | prio : Int → Priority
deriving DecidableEq

/-- Modelled from the spec: the distinguished unknown-priority sentinel the
loaders substitute when the prio field is absent. -/
def UnknownPriority : Priority := Priority.unknownPriority

/-- Modelled from the spec: a raw trace event carries an index, a timestamp,
a reporting CPU, a clipped flag, a tracepoint name, and loosely typed
numeric/text property maps keyed by field name. -/
structure Event where
  Index : Nat
  Timestamp : Int
  CPU : Int
  Clipped : Bool
  Name : String
  NumberProperties : String → Option Int
  TextProperties : String → Option String

/-- Text-map access with the Go zero value: an absent text property reads as
the empty string. -/
def Event.textProperty (ev : Event) (k : String) : String :=
  (ev.TextProperties k).getD ""

/-- Errors of the layer: the missing-field error raised during event
interpretation, plus the configuration error raised when constructing an
empty event loader. -/
inductive Err where
  | missingField (fieldName : String) (eventIndex : Nat) : Err
  | configError (msg : String) : Err
deriving DecidableEq

/-- MissingFieldError reports a missing field, naming the field and the
originating event's index (source `MissingFieldError`). -/
def MissingFieldError (fieldName : String) (ev : Event) : Err :=
  Err.missingField fieldName ev.Index

/-- Modelled from the spec: the string bank interns repeated text values to
stable handles; it only ever appends entries. -/
structure stringBank where
  strings : List String
deriving DecidableEq

/-- Modelled from the spec: interning returns the handle of an already-known
string, or appends the string and returns its fresh handle. -/
def stringBank.stringID (b : stringBank) (s : String) : Nat × stringBank :=
  match b.strings.findIdx? (fun t => t == s) with
  | some i => (i, b)
  | none => (b.strings.length, ⟨b.strings ++ [s]⟩)

/-- Modelled from the spec: a threadTransition is one event's claim about a
single thread, with previous/next pairs on the command, priority, CPU and
state channels plus per-direction conflict policies for CPU and state.
Commands are string-bank handles; `none` is the unknown-command default. -/
structure threadTransition where
  EventIndex : Nat
  Timestamp : Int
  PID : PID
  PrevCommand : Option Nat
  NextCommand : Option Nat
  PrevPriority : Priority
  NextPriority : Priority
  PrevCPU : Option CPUID
  NextCPU : Option CPUID
  PrevState : ThreadState
  NextState : ThreadState
  ForwardsCPUConflict : ConflictPolicy
  BackwardsCPUConflict : ConflictPolicy
  ForwardsStateConflict : ConflictPolicy
  BackwardsStateConflict : ConflictPolicy
deriving DecidableEq

/-- Modelled from the spec: the unknown-command marker a command channel
holds until a command is explicitly set. -/
def UnknownCommand : Option Nat := none

/-- Modelled from the spec: a freshly started transition defaults every
channel to Unknown/Unknown and every conflict policy to Assert. -/
def emptyTransition (eventIndex : Nat) (timestamp : Int) (pid : PID) :
    threadTransition where
  EventIndex := eventIndex
  Timestamp := timestamp
  PID := pid
  PrevCommand := UnknownCommand
  NextCommand := UnknownCommand
  PrevPriority := UnknownPriority
  NextPriority := UnknownPriority
  PrevCPU := none
  NextCPU := none
  PrevState := UnknownState
  NextState := UnknownState
  ForwardsCPUConflict := Assert
  BackwardsCPUConflict := Assert
  ForwardsStateConflict := Assert
  BackwardsStateConflict := Assert

/-- Modelled from the spec: the transition-set builder accumulates the
transitions of one event (most recently started first) and carries the string
bank it interns commands into. -/
structure ThreadTransitionSetBuilder where
  stringBank : stringBank
  transitionsRev : List threadTransition

/-- newThreadTransitionSetBuilder returns a fresh builder bound to the given
string bank. -/
def newThreadTransitionSetBuilder (sb : stringBank) :
    ThreadTransitionSetBuilder :=
  ⟨sb, []⟩

namespace ThreadTransitionSetBuilder

/-- Modelled from the spec: apply an update to the transition currently being
configured (the most recently started one). -/
def modifyCurrent (b : ThreadTransitionSetBuilder)
    (f : threadTransition → threadTransition) : ThreadTransitionSetBuilder :=
  match b.transitionsRev with
  | [] => b
  | t :: rest => ⟨b.stringBank, f t :: rest⟩

/-- Modelled from the spec: start a new transition for the given event index,
timestamp and PID, with all channels defaulted. -/
def WithTransition (b : ThreadTransitionSetBuilder) (eventIndex : Nat)
    (timestamp : Int) (pid : PID) : ThreadTransitionSetBuilder :=
  ⟨b.stringBank, emptyTransition eventIndex timestamp pid :: b.transitionsRev⟩

/-- Modelled from the spec: set the previous command of the current
transition, interning the text in the string bank. -/
def WithPrevCommand (b : ThreadTransitionSetBuilder) (s : String) :
    ThreadTransitionSetBuilder :=
  match b.transitionsRev with
  | [] => b
  | t :: rest =>
    let r := b.stringBank.stringID s
    ⟨r.2, { t with PrevCommand := some r.1 } :: rest⟩

/-- Modelled from the spec: set the next command of the current transition,
interning the text in the string bank. -/
def WithNextCommand (b : ThreadTransitionSetBuilder) (s : String) :
    ThreadTransitionSetBuilder :=
  match b.transitionsRev with
  | [] => b
  | t :: rest =>
    let r := b.stringBank.stringID s
    ⟨r.2, { t with NextCommand := some r.1 } :: rest⟩

/-- Modelled from the spec: set the previous priority of the current
transition. -/
def WithPrevPriority (b : ThreadTransitionSetBuilder) (p : Priority) :
    ThreadTransitionSetBuilder :=
  b.modifyCurrent fun t => { t with PrevPriority := p }

/-- Modelled from the spec: set the next priority of the current
transition. -/
def WithNextPriority (b : ThreadTransitionSetBuilder) (p : Priority) :
    ThreadTransitionSetBuilder :=
  b.modifyCurrent fun t => { t with NextPriority := p }

/-- Modelled from the spec: set the previous CPU of the current
transition. -/
def WithPrevCPU (b : ThreadTransitionSetBuilder) (c : CPUID) :
    ThreadTransitionSetBuilder :=
  b.modifyCurrent fun t => { t with PrevCPU := some c }

/-- Modelled from the spec: set the next CPU of the current transition. -/
def WithNextCPU (b : ThreadTransitionSetBuilder) (c : CPUID) :
    ThreadTransitionSetBuilder :=
  b.modifyCurrent fun t => { t with NextCPU := some c }

/-- Modelled from the spec: set the previous state of the current
transition. -/
def WithPrevState (b : ThreadTransitionSetBuilder) (s : ThreadState) :
    ThreadTransitionSetBuilder :=
  b.modifyCurrent fun t => { t with PrevState := s }

/-- Modelled from the spec: set the next state of the current transition. -/
def WithNextState (b : ThreadTransitionSetBuilder) (s : ThreadState) :
    ThreadTransitionSetBuilder :=
  b.modifyCurrent fun t => { t with NextState := s }

/-- Modelled from the spec: set the forwards-CPU conflict policy of the
current transition. -/
def OnForwardsCPUConflict (b : ThreadTransitionSetBuilder)
    (p : ConflictPolicy) : ThreadTransitionSetBuilder :=
  b.modifyCurrent fun t => { t with ForwardsCPUConflict := p }

/-- Modelled from the spec: set the backwards-CPU conflict policy of the
current transition. -/
def OnBackwardsCPUConflict (b : ThreadTransitionSetBuilder)
    (p : ConflictPolicy) : ThreadTransitionSetBuilder :=
  b.modifyCurrent fun t => { t with BackwardsCPUConflict := p }

/-- Modelled from the spec: set the forwards-state conflict policy of the
current transition. -/
def OnForwardsStateConflict (b : ThreadTransitionSetBuilder)
    (p : ConflictPolicy) : ThreadTransitionSetBuilder :=
  b.modifyCurrent fun t => { t with ForwardsStateConflict := p }

/-- Modelled from the spec: set the backwards-state conflict policy of the
current transition. -/
def OnBackwardsStateConflict (b : ThreadTransitionSetBuilder)
    (p : ConflictPolicy) : ThreadTransitionSetBuilder :=
  b.modifyCurrent fun t => { t with BackwardsStateConflict := p }

/-- Modelled from the spec: finalize the builder, returning its transitions
in the order their construction began. -/
def transitions (b : ThreadTransitionSetBuilder) : List threadTransition :=
  b.transitionsRev.reverse

end ThreadTransitionSetBuilder

/-- Loader functions convert one event into builder updates or an error
(source type `func(*trace.Event, *ThreadTransitionSetBuilder) error`). -/
abbrev Loader :=
  Event → ThreadTransitionSetBuilder → Except Err ThreadTransitionSetBuilder

/-- Substitute the unknown sentinel for an absent prio field (the Go idiom
`priority := Priority(prio); if !ok { priority = UnknownPriority }`). -/
def optPriority : Option Int → Priority
  | some p => Priority.prio p
  | none => UnknownPriority

/-- LoadSchedMigrateTask loads a sched_migrate_task event (direct translation
of the source function). -/
def LoadSchedMigrateTask : Loader := fun ev ttsb =>
  match ev.NumberProperties "pid" with
  | none => .error (MissingFieldError "pid" ev)
  | some pid =>
    let comm := ev.textProperty "comm"
    let priority := optPriority (ev.NumberProperties "prio")
    match ev.NumberProperties "orig_cpu" with
    | none => .error (MissingFieldError "orig_cpu" ev)
    | some origCPU =>
      match ev.NumberProperties "dest_cpu" with
      | none => .error (MissingFieldError "dest_cpu" ev)
      | some destCPU =>
        .ok (ttsb.WithTransition ev.Index ev.Timestamp pid
          |>.WithPrevCommand comm
          |>.WithNextCommand comm
          |>.WithPrevPriority priority
          |>.WithNextPriority priority
          |>.WithPrevCPU origCPU
          |>.WithNextCPU destCPU)

/-- SwitchData comprises the data extracted from a raw sched_switch event
(direct translation of the source struct). -/
structure SwitchData where
  NextPID : PID
  PrevPID : PID
  NextComm : String
  PrevComm : String
  NextPriority : Priority
  PrevPriority : Priority
  PrevState : ThreadState
deriving DecidableEq

/-- LoadSwitchData loads the data from a sched_switch event, converting all
fields to suitable types (direct translation of the source function). -/
def LoadSwitchData (ev : Event) : Except Err SwitchData :=
  match ev.NumberProperties "next_pid" with
  | none => .error (MissingFieldError "next_pid" ev)
  | some nextPID =>
    let nextComm := ev.textProperty "next_comm"
    let nextPriority := optPriority (ev.NumberProperties "next_prio")
    match ev.NumberProperties "prev_pid" with
    | none => .error (MissingFieldError "prev_pid" ev)
    | some prevPID =>
      let prevComm := ev.textProperty "prev_comm"
      let prevPriority := optPriority (ev.NumberProperties "prev_prio")
      match ev.NumberProperties "prev_state" with
      | none => .error (MissingFieldError "prev_state" ev)
      | some prevTaskState =>
        .ok
          { NextPID := nextPID
            PrevPID := prevPID
            NextComm := nextComm
            PrevComm := prevComm
            NextPriority := nextPriority
            PrevPriority := prevPriority
            PrevState :=
              if prevTaskState ≠ 0 then SleepingState else WaitingState }

/-- LoadSchedSwitch loads a sched_switch event (direct translation of the
source function). -/
def LoadSchedSwitch : Loader := fun ev ttsb =>
  match LoadSwitchData ev with
  | .error e => .error e
  | .ok sd =>
    let b1 := ttsb.WithTransition ev.Index ev.Timestamp sd.NextPID
      |>.WithPrevCommand sd.NextComm
      |>.WithNextCommand sd.NextComm
      |>.WithPrevPriority sd.NextPriority
      |>.WithNextPriority sd.NextPriority
      |>.WithPrevCPU ev.CPU
      |>.WithNextCPU ev.CPU
      |>.WithNextState RunningState
    .ok (b1.WithTransition ev.Index ev.Timestamp sd.PrevPID
      |>.WithPrevCommand sd.PrevComm
      |>.WithNextCommand sd.PrevComm
      |>.WithPrevPriority sd.PrevPriority
      |>.WithNextPriority sd.PrevPriority
      |>.WithPrevCPU ev.CPU
      |>.WithNextCPU ev.CPU
      |>.WithPrevState RunningState
      |>.WithNextState sd.PrevState)

/-- LoadSchedWakeup loads a sched_wakeup or sched_wakeup_new event (direct
translation of the source function). -/
def LoadSchedWakeup : Loader := fun ev ttsb =>
  match ev.NumberProperties "pid" with
  | none => .error (MissingFieldError "pid" ev)
  | some pid =>
    let comm := ev.textProperty "comm"
    let priority := optPriority (ev.NumberProperties "prio")
    match ev.NumberProperties "target_cpu" with
    | none => .error (MissingFieldError "target_cpu" ev)
    | some targetCPU =>
      .ok (ttsb.WithTransition ev.Index ev.Timestamp pid
        |>.WithPrevCommand comm
        |>.WithNextCommand comm
        |>.WithPrevPriority priority
        |>.WithNextPriority priority
        |>.WithPrevCPU targetCPU
        |>.WithNextCPU targetCPU
        |>.WithNextState WaitingState
        |>.OnBackwardsCPUConflict Drop
        |>.OnForwardsCPUConflict Drop
        |>.OnForwardsStateConflict Drop)

/-- LoadSchedSwitchWithSynthetics loads a sched_switch event from a trace
that lacks other events (direct translation of the source function). -/
def LoadSchedSwitchWithSynthetics : Loader := fun ev ttsb =>
  match LoadSwitchData ev with
  | .error e => .error e
  | .ok sd =>
    let b1 := ttsb.WithTransition ev.Index ev.Timestamp sd.NextPID
      |>.WithPrevCommand sd.NextComm
      |>.WithNextCommand sd.NextComm
      |>.WithPrevPriority sd.NextPriority
      |>.WithNextPriority sd.NextPriority
      |>.WithPrevCPU ev.CPU
      |>.WithNextCPU ev.CPU
      |>.WithPrevState WaitingState
      |>.WithNextState RunningState
      |>.OnForwardsCPUConflict InsertSynthetic
      |>.OnBackwardsCPUConflict InsertSynthetic
      |>.OnForwardsStateConflict InsertSynthetic
      |>.OnBackwardsStateConflict InsertSynthetic
    .ok (b1.WithTransition ev.Index ev.Timestamp sd.PrevPID
      |>.WithPrevCommand sd.PrevComm
      |>.WithNextCommand sd.PrevComm
      |>.WithPrevPriority sd.PrevPriority
      |>.WithNextPriority sd.PrevPriority
      |>.WithPrevCPU ev.CPU
      |>.WithNextCPU ev.CPU
      |>.WithPrevState RunningState
      |>.WithNextState sd.PrevState
      |>.OnForwardsCPUConflict InsertSynthetic
      |>.OnBackwardsCPUConflict InsertSynthetic
      |>.OnForwardsStateConflict InsertSynthetic
      |>.OnBackwardsStateConflict InsertSynthetic)

/-- DefaultEventLoaders is the set of loader functions for standard
scheduling tracepoints (direct translation; the Go map is modelled as an
association list). -/
def DefaultEventLoaders : List (String × Loader) :=
  [("sched_migrate_task", LoadSchedMigrateTask),
   ("sched_switch", LoadSchedSwitch),
   ("sched_wakeup", LoadSchedWakeup),
   ("sched_wakeup_new", LoadSchedWakeup)]

/-- SwitchOnlyLoaders is the loader set for traces attested only by
sched_switch events (direct translation). -/
def SwitchOnlyLoaders : List (String × Loader) :=
  [("sched_switch", LoadSchedSwitchWithSynthetics)]

/-- The eventLoader registry holds a string bank and the tracepoint-name to
loader mapping (direct translation of the source struct). -/
structure eventLoader where
  stringBank : stringBank
  loaders : List (String × Loader)

/-- newEventLoader rejects an empty loader mapping and otherwise returns the
registry holding the mapping and the bank (direct translation). -/
def newEventLoader (loaders : List (String × Loader)) (sb : stringBank) :
    Except Err eventLoader :=
  if loaders.length = 0 then
    .error (Err.configError "an empty eventLoader cannot generate threadTransitions")
  else
    .ok ⟨sb, loaders⟩

/-- threadTransitions dispatches one event through the registry: clipped
events and unrecognized tracepoint names yield an empty list, otherwise the
registered loader runs on a fresh builder bound to the registry's bank
(direct translation; the mutation of the shared bank is modelled by
returning the updated registry). -/
def eventLoader.threadTransitions (el : eventLoader) (ev : Event) :
    Except Err (List threadTransition) × eventLoader :=
  if ev.Clipped then
    (.ok [], el)
  else
    let ttsb := newThreadTransitionSetBuilder el.stringBank
    match el.loaders.lookup ev.Name with
    | none => (.ok [], el)
    | some loader =>
      match loader ev ttsb with
      | .error e => (.error e, el)
      | .ok ttsb1 =>
        (.ok ttsb1.transitions, { el with stringBank := ttsb1.stringBank })

/-- Required numeric fields of each recognized tracepoint, as checked by the
corresponding loader in the source. -/
def requiredFields (n : String) : List String :=
  if n = "sched_migrate_task" then ["pid", "orig_cpu", "dest_cpu"]
  else if n = "sched_switch" then ["next_pid", "prev_pid", "prev_state"]
  else if n = "sched_wakeup" then ["pid", "target_cpu"]
  else if n = "sched_wakeup_new" then ["pid", "target_cpu"]
  else []

/-- Interning handles of one string are unaffected by appending done for
another: findIdx? results survive list append. -/
lemma findIdx?_append_some {α : Type} {p : α → Bool} {l : List α} {i : Nat}
    (l2 : List α) (h : l.findIdx? p = some i) :
    (l ++ l2).findIdx? p = some i := by
  rw [List.findIdx?_append, h, Option.or]

/-- Appending a matching element to a list with no match makes findIdx?
return the old length. -/
lemma findIdx?_append_self {α : Type} {p : α → Bool} {l : List α} {x : α}
    (h : l.findIdx? p = none) (hx : p x = true) :
    (l ++ [x]).findIdx? p = some l.length := by
  rw [List.findIdx?_append, h]
  simp [List.findIdx?_cons, hx]

/-- The bank knows string s under handle i. -/
def hasHandle (b : stringBank) (s : String) (i : Nat) : Prop :=
  b.strings.findIdx? (fun t => t == s) = some i

/-- Interning a known string returns its handle and leaves the bank
unchanged. -/
lemma stringID_of_hasHandle {b : stringBank} {s : String} {i : Nat}
    (h : hasHandle b s i) : b.stringID s = (i, b) := by
  unfold stringBank.stringID
  rw [h]

/-- After interning s, the bank knows s under the returned handle. -/
lemma hasHandle_stringID (b : stringBank) (s : String) :
    hasHandle (b.stringID s).2 s (b.stringID s).1 := by
  unfold hasHandle stringBank.stringID
  cases h : b.strings.findIdx? (fun t => t == s) with
  | some i => simpa using h
  | none =>
    have := findIdx?_append_self (x := s) h (by simp)
    simpa using this

/-- Interning any other string preserves known handles. -/
lemma hasHandle_mono {b : stringBank} {s : String} {i : Nat}
    (h : hasHandle b s i) (t : String) : hasHandle (b.stringID t).2 s i := by
  unfold hasHandle stringBank.stringID
  cases ht : b.strings.findIdx? (fun u => u == t) with
  | some j => simpa using h
  | none =>
    have := findIdx?_append_some [t] h
    simpa using this

/-- A handle the bank knows a string under resolves to that string. -/
lemma getElem?_of_hasHandle {b : stringBank} {s : String} {i : Nat}
    (h : hasHandle b s i) : b.strings[i]? = some s := by
  unfold hasHandle at h
  rw [List.findIdx?_eq_some_iff_getElem] at h
  obtain ⟨hlt, hp, hmin⟩ := h
  rw [List.getElem?_eq_getElem hlt]
  simp only [Option.some.injEq]
  exact eq_of_beq (by simpa using hp)

/-- Re-interning the string just interned yields the same handle. -/
lemma stringID_fst_idem (b : stringBank) (s : String) :
    ((b.stringID s).2.stringID s).1 = (b.stringID s).1 := by
  rw [stringID_of_hasHandle (hasHandle_stringID b s)]

/-- Re-interning the string just interned leaves the bank unchanged. -/
lemma stringID_snd_idem (b : stringBank) (s : String) :
    ((b.stringID s).2.stringID s).2 = (b.stringID s).2 := by
  rw [stringID_of_hasHandle (hasHandle_stringID b s)]

/-- Normal form of a successful sched_migrate_task interpretation on a fresh
builder. -/
lemma LoadSchedMigrateTask_ok (b : stringBank) (ev : Event) (pid o d : Int)
    (hp : ev.NumberProperties "pid" = some pid)
    (ho : ev.NumberProperties "orig_cpu" = some o)
    (hd : ev.NumberProperties "dest_cpu" = some d) :
    LoadSchedMigrateTask ev (newThreadTransitionSetBuilder b) =
      .ok ⟨(b.stringID (ev.textProperty "comm")).2,
        [{ EventIndex := ev.Index
           Timestamp := ev.Timestamp
           PID := pid
           PrevCommand := some (b.stringID (ev.textProperty "comm")).1
           NextCommand := some (b.stringID (ev.textProperty "comm")).1
           PrevPriority := optPriority (ev.NumberProperties "prio")
           NextPriority := optPriority (ev.NumberProperties "prio")
           PrevCPU := some o
           NextCPU := some d
           PrevState := UnknownState
           NextState := UnknownState
           ForwardsCPUConflict := Assert
           BackwardsCPUConflict := Assert
           ForwardsStateConflict := Assert
           BackwardsStateConflict := Assert }]⟩ := by
  simp only [LoadSchedMigrateTask, hp, ho, hd]
  simp [newThreadTransitionSetBuilder, ThreadTransitionSetBuilder.WithTransition,
    ThreadTransitionSetBuilder.WithPrevCommand,
    ThreadTransitionSetBuilder.WithNextCommand,
    ThreadTransitionSetBuilder.WithPrevPriority,
    ThreadTransitionSetBuilder.WithNextPriority,
    ThreadTransitionSetBuilder.WithPrevCPU, ThreadTransitionSetBuilder.WithNextCPU,
    ThreadTransitionSetBuilder.modifyCurrent, emptyTransition,
    stringID_fst_idem, stringID_snd_idem]

/-- Normal form of a successful sched_wakeup interpretation on a fresh
builder. -/
lemma LoadSchedWakeup_ok (b : stringBank) (ev : Event) (pid tc : Int)
    (hp : ev.NumberProperties "pid" = some pid)
    (ht : ev.NumberProperties "target_cpu" = some tc) :
    LoadSchedWakeup ev (newThreadTransitionSetBuilder b) =
      .ok ⟨(b.stringID (ev.textProperty "comm")).2,
        [{ EventIndex := ev.Index
           Timestamp := ev.Timestamp
           PID := pid
           PrevCommand := some (b.stringID (ev.textProperty "comm")).1
           NextCommand := some (b.stringID (ev.textProperty "comm")).1
           PrevPriority := optPriority (ev.NumberProperties "prio")
           NextPriority := optPriority (ev.NumberProperties "prio")
           PrevCPU := some tc
           NextCPU := some tc
           PrevState := UnknownState
           NextState := WaitingState
           ForwardsCPUConflict := Drop
           BackwardsCPUConflict := Drop
           ForwardsStateConflict := Drop
           BackwardsStateConflict := Assert }]⟩ := by
  simp only [LoadSchedWakeup, hp, ht]
  simp [newThreadTransitionSetBuilder, ThreadTransitionSetBuilder.WithTransition,
    ThreadTransitionSetBuilder.WithPrevCommand,
    ThreadTransitionSetBuilder.WithNextCommand,
    ThreadTransitionSetBuilder.WithPrevPriority,
    ThreadTransitionSetBuilder.WithNextPriority,
    ThreadTransitionSetBuilder.WithPrevCPU, ThreadTransitionSetBuilder.WithNextCPU,
    ThreadTransitionSetBuilder.WithNextState,
    ThreadTransitionSetBuilder.OnBackwardsCPUConflict,
    ThreadTransitionSetBuilder.OnForwardsCPUConflict,
    ThreadTransitionSetBuilder.OnForwardsStateConflict,
    ThreadTransitionSetBuilder.modifyCurrent, emptyTransition,
    stringID_fst_idem, stringID_snd_idem]

/-- Normal form of a successful sched_switch field extraction. -/
lemma LoadSwitchData_ok (ev : Event) (np pp ps : Int)
    (h1 : ev.NumberProperties "next_pid" = some np)
    (h2 : ev.NumberProperties "prev_pid" = some pp)
    (h3 : ev.NumberProperties "prev_state" = some ps) :
    LoadSwitchData ev =
      .ok { NextPID := np
            PrevPID := pp
            NextComm := ev.textProperty "next_comm"
            PrevComm := ev.textProperty "prev_comm"
            NextPriority := optPriority (ev.NumberProperties "next_prio")
            PrevPriority := optPriority (ev.NumberProperties "prev_prio")
            PrevState := if ps ≠ 0 then SleepingState else WaitingState } := by
  simp [LoadSwitchData, h1, h2, h3]

/-- Normal form of a successful strict sched_switch interpretation on a
fresh builder: the next-PID transition is started first, so it is last in
the reversed accumulator. -/
lemma LoadSchedSwitch_ok (b : stringBank) (ev : Event) (np pp ps : Int)
    (h1 : ev.NumberProperties "next_pid" = some np)
    (h2 : ev.NumberProperties "prev_pid" = some pp)
    (h3 : ev.NumberProperties "prev_state" = some ps) :
    LoadSchedSwitch ev (newThreadTransitionSetBuilder b) =
      .ok ⟨((b.stringID (ev.textProperty "next_comm")).2.stringID
              (ev.textProperty "prev_comm")).2,
        [{ EventIndex := ev.Index
           Timestamp := ev.Timestamp
           PID := pp
           PrevCommand := some ((b.stringID (ev.textProperty "next_comm")).2.stringID
              (ev.textProperty "prev_comm")).1
           NextCommand := some ((b.stringID (ev.textProperty "next_comm")).2.stringID
              (ev.textProperty "prev_comm")).1
           PrevPriority := optPriority (ev.NumberProperties "prev_prio")
           NextPriority := optPriority (ev.NumberProperties "prev_prio")
           PrevCPU := some ev.CPU
           NextCPU := some ev.CPU
           PrevState := RunningState
           NextState := if ps ≠ 0 then SleepingState else WaitingState
           ForwardsCPUConflict := Assert
           BackwardsCPUConflict := Assert
           ForwardsStateConflict := Assert
           BackwardsStateConflict := Assert },
         { EventIndex := ev.Index
           Timestamp := ev.Timestamp
           PID := np
           PrevCommand := some (b.stringID (ev.textProperty "next_comm")).1
           NextCommand := some (b.stringID (ev.textProperty "next_comm")).1
           PrevPriority := optPriority (ev.NumberProperties "next_prio")
           NextPriority := optPriority (ev.NumberProperties "next_prio")
           PrevCPU := some ev.CPU
           NextCPU := some ev.CPU
           PrevState := UnknownState
           NextState := RunningState
           ForwardsCPUConflict := Assert
           BackwardsCPUConflict := Assert
           ForwardsStateConflict := Assert
           BackwardsStateConflict := Assert }]⟩ := by
  simp only [LoadSchedSwitch, LoadSwitchData_ok ev np pp ps h1 h2 h3]
  simp [newThreadTransitionSetBuilder, ThreadTransitionSetBuilder.WithTransition,
    ThreadTransitionSetBuilder.WithPrevCommand,
    ThreadTransitionSetBuilder.WithNextCommand,
    ThreadTransitionSetBuilder.WithPrevPriority,
    ThreadTransitionSetBuilder.WithNextPriority,
    ThreadTransitionSetBuilder.WithPrevCPU, ThreadTransitionSetBuilder.WithNextCPU,
    ThreadTransitionSetBuilder.WithPrevState, ThreadTransitionSetBuilder.WithNextState,
    ThreadTransitionSetBuilder.modifyCurrent, emptyTransition,
    stringID_fst_idem, stringID_snd_idem]

/-- Normal form of a successful synthetic-tolerant sched_switch
interpretation on a fresh builder. -/
lemma LoadSchedSwitchWithSynthetics_ok (b : stringBank) (ev : Event)
    (np pp ps : Int)
    (h1 : ev.NumberProperties "next_pid" = some np)
    (h2 : ev.NumberProperties "prev_pid" = some pp)
    (h3 : ev.NumberProperties "prev_state" = some ps) :
    LoadSchedSwitchWithSynthetics ev (newThreadTransitionSetBuilder b) =
      .ok ⟨((b.stringID (ev.textProperty "next_comm")).2.stringID
              (ev.textProperty "prev_comm")).2,
        [{ EventIndex := ev.Index
           Timestamp := ev.Timestamp
           PID := pp
           PrevCommand := some ((b.stringID (ev.textProperty "next_comm")).2.stringID
              (ev.textProperty "prev_comm")).1
           NextCommand := some ((b.stringID (ev.textProperty "next_comm")).2.stringID
              (ev.textProperty "prev_comm")).1
           PrevPriority := optPriority (ev.NumberProperties "prev_prio")
           NextPriority := optPriority (ev.NumberProperties "prev_prio")
           PrevCPU := some ev.CPU
           NextCPU := some ev.CPU
           PrevState := RunningState
           NextState := if ps ≠ 0 then SleepingState else WaitingState
           ForwardsCPUConflict := InsertSynthetic
           BackwardsCPUConflict := InsertSynthetic
           ForwardsStateConflict := InsertSynthetic
           BackwardsStateConflict := InsertSynthetic },
         { EventIndex := ev.Index
           Timestamp := ev.Timestamp
           PID := np
           PrevCommand := some (b.stringID (ev.textProperty "next_comm")).1
           NextCommand := some (b.stringID (ev.textProperty "next_comm")).1
           PrevPriority := optPriority (ev.NumberProperties "next_prio")
           NextPriority := optPriority (ev.NumberProperties "next_prio")
           PrevCPU := some ev.CPU
           NextCPU := some ev.CPU
           PrevState := WaitingState
           NextState := RunningState
           ForwardsCPUConflict := InsertSynthetic
           BackwardsCPUConflict := InsertSynthetic
           ForwardsStateConflict := InsertSynthetic
           BackwardsStateConflict := InsertSynthetic }]⟩ := by
  simp only [LoadSchedSwitchWithSynthetics, LoadSwitchData_ok ev np pp ps h1 h2 h3]
  simp [newThreadTransitionSetBuilder, ThreadTransitionSetBuilder.WithTransition,
    ThreadTransitionSetBuilder.WithPrevCommand,
    ThreadTransitionSetBuilder.WithNextCommand,
    ThreadTransitionSetBuilder.WithPrevPriority,
    ThreadTransitionSetBuilder.WithNextPriority,
    ThreadTransitionSetBuilder.WithPrevCPU, ThreadTransitionSetBuilder.WithNextCPU,
    ThreadTransitionSetBuilder.WithPrevState, ThreadTransitionSetBuilder.WithNextState,
    ThreadTransitionSetBuilder.OnForwardsCPUConflict,
    ThreadTransitionSetBuilder.OnBackwardsCPUConflict,
    ThreadTransitionSetBuilder.OnForwardsStateConflict,
    ThreadTransitionSetBuilder.OnBackwardsStateConflict,
    ThreadTransitionSetBuilder.modifyCurrent, emptyTransition,
    stringID_fst_idem, stringID_snd_idem]

/-- Every error of the migrate loader is a missing-field error naming a
missing required field and the event's index. -/
lemma LoadSchedMigrateTask_error_spec (ev : Event)
    (b : ThreadTransitionSetBuilder) (e : Err)
    (h : LoadSchedMigrateTask ev b = .error e) :
    ∃ f, f ∈ requiredFields "sched_migrate_task" ∧
      ev.NumberProperties f = none ∧ e = Err.missingField f ev.Index := by
  cases hp : ev.NumberProperties "pid" with
  | none =>
    refine ⟨"pid", by simp [requiredFields], hp, ?_⟩
    simp [LoadSchedMigrateTask, hp, MissingFieldError] at h
    exact h.symm
  | some pid =>
    cases ho : ev.NumberProperties "orig_cpu" with
    | none =>
      refine ⟨"orig_cpu", by simp [requiredFields], ho, ?_⟩
      simp [LoadSchedMigrateTask, hp, ho, MissingFieldError] at h
      exact h.symm
    | some o =>
      cases hd : ev.NumberProperties "dest_cpu" with
      | none =>
        refine ⟨"dest_cpu", by simp [requiredFields], hd, ?_⟩
        simp [LoadSchedMigrateTask, hp, ho, hd, MissingFieldError] at h
        exact h.symm
      | some d => simp [LoadSchedMigrateTask, hp, ho, hd] at h

/-- When a required migrate field is missing, the migrate loader fails with
a missing-field error naming a missing required field. -/
lemma LoadSchedMigrateTask_error_of_missing (ev : Event)
    (b : ThreadTransitionSetBuilder)
    (h : ∃ f, f ∈ requiredFields "sched_migrate_task" ∧
      ev.NumberProperties f = none) :
    ∃ f, f ∈ requiredFields "sched_migrate_task" ∧
      ev.NumberProperties f = none ∧
      LoadSchedMigrateTask ev b = .error (Err.missingField f ev.Index) := by
  cases hp : ev.NumberProperties "pid" with
  | none =>
    exact ⟨"pid", by simp [requiredFields], hp,
      by simp [LoadSchedMigrateTask, hp, MissingFieldError]⟩
  | some pid =>
    cases ho : ev.NumberProperties "orig_cpu" with
    | none =>
      exact ⟨"orig_cpu", by simp [requiredFields], ho,
        by simp [LoadSchedMigrateTask, hp, ho, MissingFieldError]⟩
    | some o =>
      cases hd : ev.NumberProperties "dest_cpu" with
      | none =>
        exact ⟨"dest_cpu", by simp [requiredFields], hd,
          by simp [LoadSchedMigrateTask, hp, ho, hd, MissingFieldError]⟩
      | some d =>
        obtain ⟨f, hf, hmiss⟩ := h
        simp [requiredFields] at hf
        rcases hf with rfl | rfl | rfl <;> simp_all

/-- Errors of the migrate loader do not depend on the builder. -/
lemma LoadSchedMigrateTask_error_indep (ev : Event)
    (b b2 : ThreadTransitionSetBuilder) (e : Err)
    (h : LoadSchedMigrateTask ev b = .error e) :
    LoadSchedMigrateTask ev b2 = .error e := by
  cases hp : ev.NumberProperties "pid" with
  | none => simp_all [LoadSchedMigrateTask, hp]
  | some pid =>
    cases ho : ev.NumberProperties "orig_cpu" with
    | none => simp_all [LoadSchedMigrateTask, hp, ho]
    | some o =>
      cases hd : ev.NumberProperties "dest_cpu" with
      | none => simp_all [LoadSchedMigrateTask, hp, ho, hd]
      | some d => simp [LoadSchedMigrateTask, hp, ho, hd] at h

/-- Every error of the wakeup loader is a missing-field error naming a
missing required field and the event's index. -/
lemma LoadSchedWakeup_error_spec (ev : Event)
    (b : ThreadTransitionSetBuilder) (e : Err)
    (h : LoadSchedWakeup ev b = .error e) :
    ∃ f, f ∈ requiredFields "sched_wakeup" ∧
      ev.NumberProperties f = none ∧ e = Err.missingField f ev.Index := by
  cases hp : ev.NumberProperties "pid" with
  | none =>
    refine ⟨"pid", by simp [requiredFields], hp, ?_⟩
    simp [LoadSchedWakeup, hp, MissingFieldError] at h
    exact h.symm
  | some pid =>
    cases ht : ev.NumberProperties "target_cpu" with
    | none =>
      refine ⟨"target_cpu", by simp [requiredFields], ht, ?_⟩
      simp [LoadSchedWakeup, hp, ht, MissingFieldError] at h
      exact h.symm
    | some tc => simp [LoadSchedWakeup, hp, ht] at h

/-- When a required wakeup field is missing, the wakeup loader fails with a
missing-field error naming a missing required field. -/
lemma LoadSchedWakeup_error_of_missing (ev : Event)
    (b : ThreadTransitionSetBuilder)
    (h : ∃ f, f ∈ requiredFields "sched_wakeup" ∧
      ev.NumberProperties f = none) :
    ∃ f, f ∈ requiredFields "sched_wakeup" ∧
      ev.NumberProperties f = none ∧
      LoadSchedWakeup ev b = .error (Err.missingField f ev.Index) := by
  cases hp : ev.NumberProperties "pid" with
  | none =>
    exact ⟨"pid", by simp [requiredFields], hp,
      by simp [LoadSchedWakeup, hp, MissingFieldError]⟩
  | some pid =>
    cases ht : ev.NumberProperties "target_cpu" with
    | none =>
      exact ⟨"target_cpu", by simp [requiredFields], ht,
        by simp [LoadSchedWakeup, hp, ht, MissingFieldError]⟩
    | some tc =>
      obtain ⟨f, hf, hmiss⟩ := h
      simp [requiredFields] at hf
      rcases hf with rfl | rfl <;> simp_all

/-- Errors of the wakeup loader do not depend on the builder. -/
lemma LoadSchedWakeup_error_indep (ev : Event)
    (b b2 : ThreadTransitionSetBuilder) (e : Err)
    (h : LoadSchedWakeup ev b = .error e) :
    LoadSchedWakeup ev b2 = .error e := by
  cases hp : ev.NumberProperties "pid" with
  | none => simp_all [LoadSchedWakeup, hp]
  | some pid =>
    cases ht : ev.NumberProperties "target_cpu" with
    | none => simp_all [LoadSchedWakeup, hp, ht]
    | some tc => simp [LoadSchedWakeup, hp, ht] at h

/-- Every error of the switch field extraction is a missing-field error
naming a missing required field and the event's index. -/
lemma LoadSwitchData_error_spec (ev : Event) (e : Err)
    (h : LoadSwitchData ev = .error e) :
    ∃ f, f ∈ requiredFields "sched_switch" ∧
      ev.NumberProperties f = none ∧ e = Err.missingField f ev.Index := by
  cases h1 : ev.NumberProperties "next_pid" with
  | none =>
    refine ⟨"next_pid", by simp [requiredFields], h1, ?_⟩
    simp [LoadSwitchData, h1, MissingFieldError] at h
    exact h.symm
  | some np =>
    cases h2 : ev.NumberProperties "prev_pid" with
    | none =>
      refine ⟨"prev_pid", by simp [requiredFields], h2, ?_⟩
      simp [LoadSwitchData, h1, h2, MissingFieldError] at h
      exact h.symm
    | some pp =>
      cases h3 : ev.NumberProperties "prev_state" with
      | none =>
        refine ⟨"prev_state", by simp [requiredFields], h3, ?_⟩
        simp [LoadSwitchData, h1, h2, h3, MissingFieldError] at h
        exact h.symm
      | some ps => simp [LoadSwitchData, h1, h2, h3] at h

/-- When a required switch field is missing, the switch field extraction
fails with a missing-field error naming a missing required field. -/
lemma LoadSwitchData_error_of_missing (ev : Event)
    (h : ∃ f, f ∈ requiredFields "sched_switch" ∧
      ev.NumberProperties f = none) :
    ∃ f, f ∈ requiredFields "sched_switch" ∧
      ev.NumberProperties f = none ∧
      LoadSwitchData ev = .error (Err.missingField f ev.Index) := by
  cases h1 : ev.NumberProperties "next_pid" with
  | none =>
    exact ⟨"next_pid", by simp [requiredFields], h1,
      by simp [LoadSwitchData, h1, MissingFieldError]⟩
  | some np =>
    cases h2 : ev.NumberProperties "prev_pid" with
    | none =>
      exact ⟨"prev_pid", by simp [requiredFields], h2,
        by simp [LoadSwitchData, h1, h2, MissingFieldError]⟩
    | some pp =>
      cases h3 : ev.NumberProperties "prev_state" with
      | none =>
        exact ⟨"prev_state", by simp [requiredFields], h3,
          by simp [LoadSwitchData, h1, h2, h3, MissingFieldError]⟩
      | some ps =>
        obtain ⟨f, hf, hmiss⟩ := h
        simp [requiredFields] at hf
        rcases hf with rfl | rfl | rfl <;> simp_all

/-- The strict switch loader errors exactly when the switch field extraction
errors, with the same error. -/
lemma LoadSchedSwitch_error_iff (ev : Event)
    (b : ThreadTransitionSetBuilder) (e : Err) :
    LoadSchedSwitch ev b = .error e ↔ LoadSwitchData ev = .error e := by
  cases hsd : LoadSwitchData ev <;> simp [LoadSchedSwitch, hsd]

/-- The synthetic-tolerant switch loader errors exactly when the switch
field extraction errors, with the same error. -/
lemma LoadSchedSwitchWithSynthetics_error_iff (ev : Event)
    (b : ThreadTransitionSetBuilder) (e : Err) :
    LoadSchedSwitchWithSynthetics ev b = .error e ↔
      LoadSwitchData ev = .error e := by
  cases hsd : LoadSwitchData ev <;> simp [LoadSchedSwitchWithSynthetics, hsd]

/-- Re-running the migrate loader from the bank its first run produced
yields the identical builder: all interned strings are already present. -/
lemma LoadSchedMigrateTask_rerun (b : stringBank) (ev : Event)
    (t : ThreadTransitionSetBuilder)
    (h : LoadSchedMigrateTask ev (newThreadTransitionSetBuilder b) = .ok t) :
    LoadSchedMigrateTask ev (newThreadTransitionSetBuilder t.stringBank) =
      .ok t := by
  cases hp : ev.NumberProperties "pid" with
  | none => simp [LoadSchedMigrateTask, hp] at h
  | some pid =>
    cases ho : ev.NumberProperties "orig_cpu" with
    | none => simp [LoadSchedMigrateTask, hp, ho] at h
    | some o =>
      cases hd : ev.NumberProperties "dest_cpu" with
      | none => simp [LoadSchedMigrateTask, hp, ho, hd] at h
      | some d =>
        rw [LoadSchedMigrateTask_ok b ev pid o d hp ho hd] at h
        injection h with h
        subst h
        rw [LoadSchedMigrateTask_ok _ ev pid o d hp ho hd]
        simp [stringID_fst_idem, stringID_snd_idem]

/-- Re-running the wakeup loader from the bank its first run produced yields
the identical builder. -/
lemma LoadSchedWakeup_rerun (b : stringBank) (ev : Event)
    (t : ThreadTransitionSetBuilder)
    (h : LoadSchedWakeup ev (newThreadTransitionSetBuilder b) = .ok t) :
    LoadSchedWakeup ev (newThreadTransitionSetBuilder t.stringBank) =
      .ok t := by
  cases hp : ev.NumberProperties "pid" with
  | none => simp [LoadSchedWakeup, hp] at h
  | some pid =>
    cases ht : ev.NumberProperties "target_cpu" with
    | none => simp [LoadSchedWakeup, hp, ht] at h
    | some tc =>
      rw [LoadSchedWakeup_ok b ev pid tc hp ht] at h
      injection h with h
      subst h
      rw [LoadSchedWakeup_ok _ ev pid tc hp ht]
      simp [stringID_fst_idem, stringID_snd_idem]

/-- Re-running the strict switch loader from the bank its first run produced
yields the identical builder. -/
lemma LoadSchedSwitch_rerun (b : stringBank) (ev : Event)
    (t : ThreadTransitionSetBuilder)
    (h : LoadSchedSwitch ev (newThreadTransitionSetBuilder b) = .ok t) :
    LoadSchedSwitch ev (newThreadTransitionSetBuilder t.stringBank) =
      .ok t := by
  cases h1 : ev.NumberProperties "next_pid" with
  | none => simp [LoadSchedSwitch, LoadSwitchData, h1] at h
  | some np =>
    cases h2 : ev.NumberProperties "prev_pid" with
    | none => simp [LoadSchedSwitch, LoadSwitchData, h1, h2] at h
    | some pp =>
      cases h3 : ev.NumberProperties "prev_state" with
      | none => simp [LoadSchedSwitch, LoadSwitchData, h1, h2, h3] at h
      | some ps =>
        rw [LoadSchedSwitch_ok b ev np pp ps h1 h2 h3] at h
        injection h with h
        subst h
        rw [LoadSchedSwitch_ok _ ev np pp ps h1 h2 h3]
        have hnc := hasHandle_mono
          (hasHandle_stringID b (ev.textProperty "next_comm"))
          (ev.textProperty "prev_comm")
        have hpc := hasHandle_stringID
          ((b.stringID (ev.textProperty "next_comm")).2)
          (ev.textProperty "prev_comm")
        simp [stringID_of_hasHandle hnc, stringID_of_hasHandle hpc]

/-- Re-running the synthetic-tolerant switch loader from the bank its first
run produced yields the identical builder. -/
lemma LoadSchedSwitchWithSynthetics_rerun (b : stringBank) (ev : Event)
    (t : ThreadTransitionSetBuilder)
    (h : LoadSchedSwitchWithSynthetics ev (newThreadTransitionSetBuilder b) =
      .ok t) :
    LoadSchedSwitchWithSynthetics ev
      (newThreadTransitionSetBuilder t.stringBank) = .ok t := by
  cases h1 : ev.NumberProperties "next_pid" with
  | none => simp [LoadSchedSwitchWithSynthetics, LoadSwitchData, h1] at h
  | some np =>
    cases h2 : ev.NumberProperties "prev_pid" with
    | none => simp [LoadSchedSwitchWithSynthetics, LoadSwitchData, h1, h2] at h
    | some pp =>
      cases h3 : ev.NumberProperties "prev_state" with
      | none =>
        simp [LoadSchedSwitchWithSynthetics, LoadSwitchData, h1, h2, h3] at h
      | some ps =>
        rw [LoadSchedSwitchWithSynthetics_ok b ev np pp ps h1 h2 h3] at h
        injection h with h
        subst h
        rw [LoadSchedSwitchWithSynthetics_ok _ ev np pp ps h1 h2 h3]
        have hnc := hasHandle_mono
          (hasHandle_stringID b (ev.textProperty "next_comm"))
          (ev.textProperty "prev_comm")
        have hpc := hasHandle_stringID
          ((b.stringID (ev.textProperty "next_comm")).2)
          (ev.textProperty "prev_comm")
        simp [stringID_of_hasHandle hnc, stringID_of_hasHandle hpc]

/-- Dispatch shape of threadTransitions on a non-clipped event with a
registered loader. -/
lemma threadTransitions_dispatch (el : eventLoader) (ev : Event)
    (hclip : ev.Clipped = false) (L : Loader)
    (hL : el.loaders.lookup ev.Name = some L) :
    el.threadTransitions ev =
      match L ev (newThreadTransitionSetBuilder el.stringBank) with
      | .error e => (.error e, el)
      | .ok ttsb1 =>
        (.ok ttsb1.transitions, { el with stringBank := ttsb1.stringBank }) := by
  simp [eventLoader.threadTransitions, hclip, hL]

/-- The empty bank, used for concrete evaluations. -/
def bank0 : stringBank := ⟨[]⟩

/-- A concrete well-formed sched_switch event on CPU 2. -/
def evSwitch0 : Event where
  Index := 3
  Timestamp := 100
  CPU := 2
  Clipped := false
  Name := "sched_switch"
  NumberProperties := fun k =>
    if k = "next_pid" then some 5
    else if k = "prev_pid" then some 7
    else if k = "prev_state" then some 0
    else none
  TextProperties := fun k =>
    if k = "next_comm" then some "a"
    else if k = "prev_comm" then some "b"
    else none

/-- A concrete well-formed sched_migrate_task event. -/
def evMigrate0 : Event where
  Index := 1
  Timestamp := 50
  CPU := 0
  Clipped := false
  Name := "sched_migrate_task"
  NumberProperties := fun k =>
    if k = "pid" then some 42
    else if k = "orig_cpu" then some 1
    else if k = "dest_cpu" then some 3
    else if k = "prio" then some 10
    else none
  TextProperties := fun k => if k = "comm" then some "x" else none

/-- A concrete well-formed sched_wakeup event. -/
def evWakeup0 : Event where
  Index := 2
  Timestamp := 60
  CPU := 0
  Clipped := false
  Name := "sched_wakeup"
  NumberProperties := fun k =>
    if k = "pid" then some 9 else if k = "target_cpu" then some 4 else none
  TextProperties := fun _ => none

/-- A concrete clipped event. -/
def evClipped0 : Event where
  Index := 5
  Timestamp := 80
  CPU := 0
  Clipped := true
  Name := "sched_switch"
  NumberProperties := fun _ => none
  TextProperties := fun _ => none

/-- A concrete non-clipped event with an unrecognized tracepoint name. -/
def evUnknown0 : Event where
  Index := 6
  Timestamp := 90
  CPU := 0
  Clipped := false
  Name := "cpu_frequency"
  NumberProperties := fun _ => none
  TextProperties := fun _ => none

/-- A concrete non-clipped sched_switch event missing prev_state. -/
def evMissing0 : Event where
  Index := 7
  Timestamp := 95
  CPU := 0
  Clipped := false
  Name := "sched_switch"
  NumberProperties := fun k =>
    if k = "next_pid" then some 5 else if k = "prev_pid" then some 7 else none
  TextProperties := fun _ => none

/-- A concrete ordinary sched_migrate_task event with no text fields. -/
def evMigrate1 : Event where
  Index := 8
  Timestamp := 110
  CPU := 0
  Clipped := false
  Name := "sched_migrate_task"
  NumberProperties := fun k =>
    if k = "pid" then some 42
    else if k = "orig_cpu" then some 1
    else if k = "dest_cpu" then some 3
    else none
  TextProperties := fun _ => none

/-- A concrete ordinary sched_switch event with no text fields. -/
def evSwitch1 : Event where
  Index := 9
  Timestamp := 120
  CPU := 2
  Clipped := false
  Name := "sched_switch"
  NumberProperties := fun k =>
    if k = "next_pid" then some 5
    else if k = "prev_pid" then some 7
    else if k = "prev_state" then some 0
    else none
  TextProperties := fun _ => none

/-- C1: for every sched_switch event carrying next_pid, prev_pid and
prev_state, LoadSchedSwitch succeeds and emits exactly two transitions
sharing the event's index and timestamp: first one for next_pid with
command and priority equal before and after, both CPUs the reporting CPU,
and next state Running; then one for prev_pid with command and priority
equal before and after, both CPUs the reporting CPU, previous state Running,
and next state Waiting when prev_state is 0 and Sleeping otherwise. -/
theorem C1_switch_transitions (sb : stringBank) (ev : Event) (np pp ps : Int)
    (hn : ev.NumberProperties "next_pid" = some np)
    (hp : ev.NumberProperties "prev_pid" = some pp)
    (hs : ev.NumberProperties "prev_state" = some ps) :
    ∃ b t1 t2,
      LoadSchedSwitch ev (newThreadTransitionSetBuilder sb) = .ok b ∧
      b.transitions = [t1, t2] ∧
      t1.PID = np ∧ t1.EventIndex = ev.Index ∧ t1.Timestamp = ev.Timestamp ∧
      t1.PrevCommand = t1.NextCommand ∧ t1.PrevPriority = t1.NextPriority ∧
      t1.PrevCPU = some ev.CPU ∧ t1.NextCPU = some ev.CPU ∧
      t1.NextState = RunningState ∧
      t2.PID = pp ∧ t2.EventIndex = ev.Index ∧ t2.Timestamp = ev.Timestamp ∧
      t2.PrevCommand = t2.NextCommand ∧ t2.PrevPriority = t2.NextPriority ∧
      t2.PrevCPU = some ev.CPU ∧ t2.NextCPU = some ev.CPU ∧
      t2.PrevState = RunningState ∧
      t2.NextState = (if ps = 0 then WaitingState else SleepingState) := by
  refine ⟨_, _, _, LoadSchedSwitch_ok sb ev np pp ps hn hp hs, rfl, ?_⟩
  by_cases hps : ps = 0 <;>
    simp [ThreadTransitionSetBuilder.transitions, hps]

/-- C1 witness: the theorem applied to a concrete well-formed switch
event. -/
theorem C1_switch_transitions_witness :
    ∃ b t1 t2,
      LoadSchedSwitch evSwitch0 (newThreadTransitionSetBuilder bank0) =
        .ok b ∧
      b.transitions = [t1, t2] ∧
      t1.PID = 5 ∧ t1.EventIndex = evSwitch0.Index ∧
      t1.Timestamp = evSwitch0.Timestamp ∧
      t1.PrevCommand = t1.NextCommand ∧ t1.PrevPriority = t1.NextPriority ∧
      t1.PrevCPU = some evSwitch0.CPU ∧ t1.NextCPU = some evSwitch0.CPU ∧
      t1.NextState = RunningState ∧
      t2.PID = 7 ∧ t2.EventIndex = evSwitch0.Index ∧
      t2.Timestamp = evSwitch0.Timestamp ∧
      t2.PrevCommand = t2.NextCommand ∧ t2.PrevPriority = t2.NextPriority ∧
      t2.PrevCPU = some evSwitch0.CPU ∧ t2.NextCPU = some evSwitch0.CPU ∧
      t2.PrevState = RunningState ∧
      t2.NextState = (if (0 : Int) = 0 then WaitingState else SleepingState) :=
  C1_switch_transitions bank0 evSwitch0 5 7 0 (by decide) (by decide) (by decide)

/-- C3: for every sched_wakeup or sched_wakeup_new event carrying pid and
target_cpu, LoadSchedWakeup succeeds and emits exactly one transition for
that PID with both CPUs target_cpu, previous state Unknown, next state
Waiting, Drop policy on forwards-CPU, backwards-CPU and forwards-state, and
the default Assert policy on backwards-state. -/
theorem C3_wakeup_transition (sb : stringBank) (ev : Event) (pid tc : Int)
    (hp : ev.NumberProperties "pid" = some pid)
    (ht : ev.NumberProperties "target_cpu" = some tc) :
    ∃ b t,
      LoadSchedWakeup ev (newThreadTransitionSetBuilder sb) = .ok b ∧
      b.transitions = [t] ∧
      t.PID = pid ∧ t.EventIndex = ev.Index ∧ t.Timestamp = ev.Timestamp ∧
      t.PrevCPU = some tc ∧ t.NextCPU = some tc ∧
      t.PrevState = UnknownState ∧ t.NextState = WaitingState ∧
      t.ForwardsCPUConflict = Drop ∧ t.BackwardsCPUConflict = Drop ∧
      t.ForwardsStateConflict = Drop ∧ t.BackwardsStateConflict = Assert :=
  ⟨_, _, LoadSchedWakeup_ok sb ev pid tc hp ht, rfl, rfl, rfl, rfl, rfl,
    rfl, rfl, rfl, rfl, rfl, rfl, rfl⟩

/-- C3 witness: the theorem applied to a concrete wakeup event. -/
theorem C3_wakeup_transition_witness :
    ∃ b t,
      LoadSchedWakeup evWakeup0 (newThreadTransitionSetBuilder bank0) =
        .ok b ∧
      b.transitions = [t] ∧
      t.PID = 9 ∧ t.EventIndex = evWakeup0.Index ∧
      t.Timestamp = evWakeup0.Timestamp ∧
      t.PrevCPU = some 4 ∧ t.NextCPU = some 4 ∧
      t.PrevState = UnknownState ∧ t.NextState = WaitingState ∧
      t.ForwardsCPUConflict = Drop ∧ t.BackwardsCPUConflict = Drop ∧
      t.ForwardsStateConflict = Drop ∧ t.BackwardsStateConflict = Assert :=
  C3_wakeup_transition bank0 evWakeup0 9 4 (by decide) (by decide)

/-- C4: for every sched_migrate_task event carrying pid, orig_cpu and
dest_cpu, LoadSchedMigrateTask succeeds and emits exactly one transition for
that PID with previous CPU orig_cpu, next CPU dest_cpu, command and priority
equal before and after (priority Unknown when prio is absent), state Unknown
on both sides, and the default Assert policy on every direction. -/
theorem C4_migrate_transition (sb : stringBank) (ev : Event) (pid o d : Int)
    (hp : ev.NumberProperties "pid" = some pid)
    (ho : ev.NumberProperties "orig_cpu" = some o)
    (hd : ev.NumberProperties "dest_cpu" = some d) :
    ∃ b t,
      LoadSchedMigrateTask ev (newThreadTransitionSetBuilder sb) = .ok b ∧
      b.transitions = [t] ∧
      t.PID = pid ∧ t.EventIndex = ev.Index ∧ t.Timestamp = ev.Timestamp ∧
      t.PrevCommand = t.NextCommand ∧ t.PrevPriority = t.NextPriority ∧
      (ev.NumberProperties "prio" = none → t.PrevPriority = UnknownPriority) ∧
      t.PrevCPU = some o ∧ t.NextCPU = some d ∧
      t.PrevState = UnknownState ∧ t.NextState = UnknownState ∧
      t.ForwardsCPUConflict = Assert ∧ t.BackwardsCPUConflict = Assert ∧
      t.ForwardsStateConflict = Assert ∧ t.BackwardsStateConflict = Assert := by
  refine ⟨_, _, LoadSchedMigrateTask_ok sb ev pid o d hp ho hd, rfl, rfl, rfl,
    rfl, rfl, rfl, ?_, rfl, rfl, rfl, rfl, rfl, rfl, rfl, rfl⟩
  intro hnone
  simp [hnone, optPriority]

/-- C4 witness: the theorem applied to a concrete migrate event. -/
theorem C4_migrate_transition_witness :
    ∃ b t,
      LoadSchedMigrateTask evMigrate0 (newThreadTransitionSetBuilder bank0) =
        .ok b ∧
      b.transitions = [t] ∧
      t.PID = 42 ∧ t.EventIndex = evMigrate0.Index ∧
      t.Timestamp = evMigrate0.Timestamp ∧
      t.PrevCommand = t.NextCommand ∧ t.PrevPriority = t.NextPriority ∧
      (evMigrate0.NumberProperties "prio" = none →
        t.PrevPriority = UnknownPriority) ∧
      t.PrevCPU = some 1 ∧ t.NextCPU = some 3 ∧
      t.PrevState = UnknownState ∧ t.NextState = UnknownState ∧
      t.ForwardsCPUConflict = Assert ∧ t.BackwardsCPUConflict = Assert ∧
      t.ForwardsStateConflict = Assert ∧ t.BackwardsStateConflict = Assert :=
  C4_migrate_transition bank0 evMigrate0 42 1 3
    (by decide) (by decide) (by decide)

/-- C2 counterexample: on a concrete well-formed switch event the two
interpreters do NOT produce the same channel values: the synthetics variant
sets the next-PID transition's previous state to Waiting whereas the strict
variant leaves it Unknown, so the difference is not confined to the conflict
policies. -/
theorem C2_counterexample :
    (LoadSchedSwitch evSwitch0 (newThreadTransitionSetBuilder bank0)).map
        (fun b => b.transitions.map threadTransition.PrevState) =
      .ok [UnknownState, RunningState] ∧
    (LoadSchedSwitchWithSynthetics evSwitch0
        (newThreadTransitionSetBuilder bank0)).map
        (fun b => b.transitions.map threadTransition.PrevState) =
      .ok [WaitingState, RunningState] :=
  ⟨rfl, rfl⟩

/-- C2 amended: for every sched_switch event on which LoadSchedSwitch
succeeds, LoadSchedSwitchWithSynthetics also succeeds and produces the same
two transitions with the same channel values, except that the first
(next-PID) transition's previous state is Waiting instead of Unknown, and on
each transition all four directional conflict policies are InsertSynthetic
instead of the default Assert. -/
theorem C2_synthetics_amended (sb : stringBank) (ev : Event) (np pp ps : Int)
    (hn : ev.NumberProperties "next_pid" = some np)
    (hp : ev.NumberProperties "prev_pid" = some pp)
    (hs : ev.NumberProperties "prev_state" = some ps) :
    ∃ b b2 t1 t2,
      LoadSchedSwitch ev (newThreadTransitionSetBuilder sb) = .ok b ∧
      LoadSchedSwitchWithSynthetics ev (newThreadTransitionSetBuilder sb) =
        .ok b2 ∧
      b.transitions = [t1, t2] ∧
      b2.transitions =
        [{ t1 with
             PrevState := WaitingState
             ForwardsCPUConflict := InsertSynthetic
             BackwardsCPUConflict := InsertSynthetic
             ForwardsStateConflict := InsertSynthetic
             BackwardsStateConflict := InsertSynthetic },
         { t2 with
             ForwardsCPUConflict := InsertSynthetic
             BackwardsCPUConflict := InsertSynthetic
             ForwardsStateConflict := InsertSynthetic
             BackwardsStateConflict := InsertSynthetic }] :=
  ⟨_, _, _, _, LoadSchedSwitch_ok sb ev np pp ps hn hp hs,
    LoadSchedSwitchWithSynthetics_ok sb ev np pp ps hn hp hs, rfl, rfl⟩

/-- C2 witness: the amended theorem applied to a concrete well-formed
switch event. -/
theorem C2_synthetics_amended_witness :
    ∃ b b2 t1 t2,
      LoadSchedSwitch evSwitch0 (newThreadTransitionSetBuilder bank0) =
        .ok b ∧
      LoadSchedSwitchWithSynthetics evSwitch0
        (newThreadTransitionSetBuilder bank0) = .ok b2 ∧
      b.transitions = [t1, t2] ∧
      b2.transitions =
        [{ t1 with
             PrevState := WaitingState
             ForwardsCPUConflict := InsertSynthetic
             BackwardsCPUConflict := InsertSynthetic
             ForwardsStateConflict := InsertSynthetic
             BackwardsStateConflict := InsertSynthetic },
         { t2 with
             ForwardsCPUConflict := InsertSynthetic
             BackwardsCPUConflict := InsertSynthetic
             ForwardsStateConflict := InsertSynthetic
             BackwardsStateConflict := InsertSynthetic }] :=
  C2_synthetics_amended bank0 evSwitch0 5 7 0
    (by decide) (by decide) (by decide)

/-- C6: for every registry and every clipped event, threadTransitions
returns an empty transition list, no error, and an unchanged registry,
regardless of tracepoint name or field contents. -/
theorem C6_clipped_empty (el : eventLoader) (ev : Event)
    (h : ev.Clipped = true) :
    el.threadTransitions ev = (.ok [], el) := by
  simp [eventLoader.threadTransitions, h]

/-- C6 witness: a concrete clipped event through the default registry. -/
theorem C6_clipped_empty_witness :
    evClipped0.Clipped = true ∧
      eventLoader.threadTransitions ⟨bank0, DefaultEventLoaders⟩ evClipped0 =
        (.ok [], ⟨bank0, DefaultEventLoaders⟩) :=
  ⟨rfl, C6_clipped_empty ⟨bank0, DefaultEventLoaders⟩ evClipped0 rfl⟩

/-- C7: for every non-clipped event whose tracepoint name has no registered
loader, threadTransitions returns an empty transition list, no error, and an
unchanged registry, regardless of the event's field contents. -/
theorem C7_unrecognized_empty (el : eventLoader) (ev : Event)
    (hclip : ev.Clipped = false)
    (hlk : el.loaders.lookup ev.Name = none) :
    el.threadTransitions ev = (.ok [], el) := by
  simp [eventLoader.threadTransitions, hclip, hlk]

/-- C7 witness: a concrete unrecognized-tracepoint event through the default
registry. -/
theorem C7_unrecognized_empty_witness :
    evUnknown0.Clipped = false ∧
      DefaultEventLoaders.lookup evUnknown0.Name = none ∧
      eventLoader.threadTransitions ⟨bank0, DefaultEventLoaders⟩ evUnknown0 =
        (.ok [], ⟨bank0, DefaultEventLoaders⟩) :=
  ⟨rfl, rfl,
    C7_unrecognized_empty ⟨bank0, DefaultEventLoaders⟩ evUnknown0 rfl rfl⟩

/-- C8: constructing a registry from an empty mapping fails with the
configuration error and yields no registry, while any non-empty mapping
yields a registry holding exactly that mapping and the supplied string
bank. -/
theorem C8_construction (sb : stringBank) :
    newEventLoader [] sb =
      .error (Err.configError
        "an empty eventLoader cannot generate threadTransitions") ∧
    ∀ loaders : List (String × Loader), loaders ≠ [] →
      newEventLoader loaders sb = .ok ⟨sb, loaders⟩ := by
  constructor
  · rfl
  · intro loaders h
    simp [newEventLoader, List.length_eq_zero, h]

/-- C8 witness: the empty mapping is rejected and the default mapping is
accepted verbatim. -/
theorem C8_construction_witness :
    newEventLoader [] bank0 =
      .error (Err.configError
        "an empty eventLoader cannot generate threadTransitions") ∧
    newEventLoader DefaultEventLoaders bank0 =
      .ok ⟨bank0, DefaultEventLoaders⟩ :=
  ⟨(C8_construction bank0).1,
    (C8_construction bank0).2 DefaultEventLoaders (by simp [DefaultEventLoaders])⟩

/-- C10: for every event on which the relevant loader succeeds, an absent
optional text field (comm for migrate and wakeup, next_comm or prev_comm for
switch) still lets interpretation succeed, and the affected transition's
previous and next command are both the bank handle that resolves to the
empty string, not the unknown-command marker. Each part assumes only its own
tracepoint's required fields. -/
theorem C10_absent_command (sb : stringBank) (ev : Event) :
    (∀ pid o d : Int,
      ev.NumberProperties "pid" = some pid →
      ev.NumberProperties "orig_cpu" = some o →
      ev.NumberProperties "dest_cpu" = some d →
      ev.TextProperties "comm" = none →
      ∃ b t,
        LoadSchedMigrateTask ev (newThreadTransitionSetBuilder sb) = .ok b ∧
        b.transitions = [t] ∧
        (∃ h, t.PrevCommand = some h ∧ t.NextCommand = some h ∧
          b.stringBank.strings[h]? = some "") ∧
        t.PrevCommand ≠ UnknownCommand) ∧
    (∀ pid tc : Int,
      ev.NumberProperties "pid" = some pid →
      ev.NumberProperties "target_cpu" = some tc →
      ev.TextProperties "comm" = none →
      ∃ b t,
        LoadSchedWakeup ev (newThreadTransitionSetBuilder sb) = .ok b ∧
        b.transitions = [t] ∧
        (∃ h, t.PrevCommand = some h ∧ t.NextCommand = some h ∧
          b.stringBank.strings[h]? = some "") ∧
        t.PrevCommand ≠ UnknownCommand) ∧
    (∀ np pp ps : Int,
      ev.NumberProperties "next_pid" = some np →
      ev.NumberProperties "prev_pid" = some pp →
      ev.NumberProperties "prev_state" = some ps →
      ((ev.TextProperties "next_comm" = none →
        ∃ b t1 t2,
          LoadSchedSwitch ev (newThreadTransitionSetBuilder sb) = .ok b ∧
          b.transitions = [t1, t2] ∧
          (∃ h, t1.PrevCommand = some h ∧ t1.NextCommand = some h ∧
            b.stringBank.strings[h]? = some "") ∧
          t1.PrevCommand ≠ UnknownCommand) ∧
       (ev.TextProperties "prev_comm" = none →
        ∃ b t1 t2,
          LoadSchedSwitch ev (newThreadTransitionSetBuilder sb) = .ok b ∧
          b.transitions = [t1, t2] ∧
          (∃ h, t2.PrevCommand = some h ∧ t2.NextCommand = some h ∧
            b.stringBank.strings[h]? = some "") ∧
          t2.PrevCommand ≠ UnknownCommand))) := by
  refine ⟨?_, ?_, ?_⟩
  · intro pid o d hp ho hd hc
    have hc0 : ev.textProperty "comm" = "" := by simp [Event.textProperty, hc]
    refine ⟨_, _, LoadSchedMigrateTask_ok sb ev pid o d hp ho hd, rfl,
      ⟨(sb.stringID (ev.textProperty "comm")).1, rfl, rfl, ?_⟩,
      by simp [UnknownCommand]⟩
    rw [hc0]
    exact getElem?_of_hasHandle (hasHandle_stringID sb "")
  · intro pid tc hp ht hc
    have hc0 : ev.textProperty "comm" = "" := by simp [Event.textProperty, hc]
    refine ⟨_, _, LoadSchedWakeup_ok sb ev pid tc hp ht, rfl,
      ⟨(sb.stringID (ev.textProperty "comm")).1, rfl, rfl, ?_⟩,
      by simp [UnknownCommand]⟩
    rw [hc0]
    exact getElem?_of_hasHandle (hasHandle_stringID sb "")
  · intro np pp ps h5 h6 h7
    constructor
    · intro hnc
      have hnc0 : ev.textProperty "next_comm" = "" := by
        simp [Event.textProperty, hnc]
      refine ⟨_, _, _, LoadSchedSwitch_ok sb ev np pp ps h5 h6 h7, rfl,
        ⟨(sb.stringID (ev.textProperty "next_comm")).1, rfl, rfl, ?_⟩,
        by simp [UnknownCommand]⟩
      rw [hnc0]
      exact getElem?_of_hasHandle
        (hasHandle_mono (hasHandle_stringID sb "")
          (ev.textProperty "prev_comm"))
    · intro hpc
      have hpc0 : ev.textProperty "prev_comm" = "" := by
        simp [Event.textProperty, hpc]
      refine ⟨_, _, _, LoadSchedSwitch_ok sb ev np pp ps h5 h6 h7, rfl,
        ⟨((sb.stringID (ev.textProperty "next_comm")).2.stringID
            (ev.textProperty "prev_comm")).1, rfl, rfl, ?_⟩,
        by simp [UnknownCommand]⟩
      rw [hpc0]
      exact getElem?_of_hasHandle
        (hasHandle_stringID ((sb.stringID (ev.textProperty "next_comm")).2) "")

/-- C10 witness: the theorem applied to ordinary concrete events of each
tracepoint, each carrying only its own required numeric fields and no text
fields. -/
theorem C10_absent_command_witness :
    (∃ b t,
      LoadSchedMigrateTask evMigrate1 (newThreadTransitionSetBuilder bank0) =
        .ok b ∧
      b.transitions = [t] ∧
      (∃ h, t.PrevCommand = some h ∧ t.NextCommand = some h ∧
        b.stringBank.strings[h]? = some "") ∧
      t.PrevCommand ≠ UnknownCommand) ∧
    (∃ b t,
      LoadSchedWakeup evWakeup0 (newThreadTransitionSetBuilder bank0) =
        .ok b ∧
      b.transitions = [t] ∧
      (∃ h, t.PrevCommand = some h ∧ t.NextCommand = some h ∧
        b.stringBank.strings[h]? = some "") ∧
      t.PrevCommand ≠ UnknownCommand) ∧
    (∃ b t1 t2,
      LoadSchedSwitch evSwitch1 (newThreadTransitionSetBuilder bank0) =
        .ok b ∧
      b.transitions = [t1, t2] ∧
      (∃ h, t1.PrevCommand = some h ∧ t1.NextCommand = some h ∧
        b.stringBank.strings[h]? = some "") ∧
      t1.PrevCommand ≠ UnknownCommand) ∧
    (∃ b t1 t2,
      LoadSchedSwitch evSwitch1 (newThreadTransitionSetBuilder bank0) =
        .ok b ∧
      b.transitions = [t1, t2] ∧
      (∃ h, t2.PrevCommand = some h ∧ t2.NextCommand = some h ∧
        b.stringBank.strings[h]? = some "") ∧
      t2.PrevCommand ≠ UnknownCommand) :=
  ⟨(C10_absent_command bank0 evMigrate1).1 42 1 3
      (by decide) (by decide) (by decide) rfl,
   (C10_absent_command bank0 evWakeup0).2.1 9 4 (by decide) (by decide) rfl,
   ((C10_absent_command bank0 evSwitch1).2.2 5 7 0
      (by decide) (by decide) (by decide)).1 rfl,
   ((C10_absent_command bank0 evSwitch1).2.2 5 7 0
      (by decide) (by decide) (by decide)).2 rfl⟩

/-- C9: for every registry whose registered interpreters are the four of
this package and every event, interpreting the same event twice (the second
call running against the registry state left by the first, i.e. against the
grown string bank) yields structurally equal results: equal transition lists
on success, equal errors on failure. -/
theorem C9_idempotent (sb : stringBank) (loaders : List (String × Loader))
    (hL : ∀ n L, loaders.lookup n = some L →
      L = LoadSchedMigrateTask ∨ L = LoadSchedSwitch ∨
      L = LoadSchedWakeup ∨ L = LoadSchedSwitchWithSynthetics)
    (ev : Event) :
    ((⟨sb, loaders⟩ : eventLoader).threadTransitions ev).1 =
      (((⟨sb, loaders⟩ : eventLoader).threadTransitions
        ev).2.threadTransitions ev).1 := by
  by_cases hclip : ev.Clipped
  · simp [eventLoader.threadTransitions, hclip]
  · simp only [Bool.not_eq_true] at hclip
    cases hlk : loaders.lookup ev.Name with
    | none => simp [eventLoader.threadTransitions, hclip, hlk]
    | some L =>
      cases hr : L ev (newThreadTransitionSetBuilder sb) with
      | error e => simp [eventLoader.threadTransitions, hclip, hlk, hr]
      | ok t =>
        have hre : L ev (newThreadTransitionSetBuilder t.stringBank) =
            .ok t := by
          rcases hL ev.Name L hlk with rfl | rfl | rfl | rfl
          · exact LoadSchedMigrateTask_rerun sb ev t hr
          · exact LoadSchedSwitch_rerun sb ev t hr
          · exact LoadSchedWakeup_rerun sb ev t hr
          · exact LoadSchedSwitchWithSynthetics_rerun sb ev t hr
        simp [eventLoader.threadTransitions, hclip, hlk, hr, hre]

/-- C9 witness: the default registry interprets a concrete switch event
twice with structurally equal results. -/
theorem C9_idempotent_witness :
    ((⟨bank0, DefaultEventLoaders⟩ : eventLoader).threadTransitions
        evSwitch0).1 =
      (((⟨bank0, DefaultEventLoaders⟩ : eventLoader).threadTransitions
        evSwitch0).2.threadTransitions evSwitch0).1 :=
  C9_idempotent bank0 DefaultEventLoaders
    (by
      intro n L h
      by_cases e1 : n = "sched_migrate_task"
      · subst e1
        simp [DefaultEventLoaders, List.lookup] at h
        exact Or.inl h.symm
      · by_cases e2 : n = "sched_switch"
        · subst e2
          simp [DefaultEventLoaders, List.lookup] at h
          exact Or.inr (Or.inl h.symm)
        · by_cases e3 : n = "sched_wakeup"
          · subst e3
            simp [DefaultEventLoaders, List.lookup] at h
            exact Or.inr (Or.inr (Or.inl h.symm))
          · by_cases e4 : n = "sched_wakeup_new"
            · subst e4
              simp [DefaultEventLoaders, List.lookup] at h
              exact Or.inr (Or.inr (Or.inl h.symm))
            · simp [DefaultEventLoaders, List.lookup,
                beq_eq_false_iff_ne.mpr e1, beq_eq_false_iff_ne.mpr e2,
                beq_eq_false_iff_ne.mpr e3, beq_eq_false_iff_ne.mpr e4] at h)
    evSwitch0

/-- C5: for every non-clipped event of a recognized tracepoint with a
missing required numeric field, threadTransitions fails with a missing-field
error naming a missing required field and the event's index; and conversely
every error the default and switch-only registries ever raise is such a
missing-field error, so no transitions accompany it and no other error kind
exists. -/
theorem C5_missing_field (sb : stringBank) (ev : Event)
    (hclip : ev.Clipped = false) :
    ((∃ f, f ∈ requiredFields ev.Name ∧ ev.NumberProperties f = none) →
      ∃ f, f ∈ requiredFields ev.Name ∧ ev.NumberProperties f = none ∧
        ((⟨sb, DefaultEventLoaders⟩ : eventLoader).threadTransitions ev).1 =
          .error (Err.missingField f ev.Index)) ∧
    (∀ e,
      ((⟨sb, DefaultEventLoaders⟩ : eventLoader).threadTransitions ev).1 =
        .error e →
      ∃ f, f ∈ requiredFields ev.Name ∧ ev.NumberProperties f = none ∧
        e = Err.missingField f ev.Index) ∧
    (ev.Name = "sched_switch" →
      ((∃ f, f ∈ requiredFields ev.Name ∧ ev.NumberProperties f = none) →
        ∃ f, f ∈ requiredFields ev.Name ∧ ev.NumberProperties f = none ∧
          ((⟨sb, SwitchOnlyLoaders⟩ : eventLoader).threadTransitions ev).1 =
            .error (Err.missingField f ev.Index)) ∧
      (∀ e,
        ((⟨sb, SwitchOnlyLoaders⟩ : eventLoader).threadTransitions ev).1 =
          .error e →
        ∃ f, f ∈ requiredFields ev.Name ∧ ev.NumberProperties f = none ∧
          e = Err.missingField f ev.Index)) := by
  have hwnew : requiredFields "sched_wakeup_new" = requiredFields "sched_wakeup" := by
    simp [requiredFields]
  refine ⟨?_, ?_, ?_⟩
  · intro hmiss
    by_cases e1 : ev.Name = "sched_migrate_task"
    · have hlk : DefaultEventLoaders.lookup ev.Name =
          some LoadSchedMigrateTask := by
        simp [DefaultEventLoaders, List.lookup, e1]
      rw [e1] at hmiss
      obtain ⟨f, hf, hm, herr⟩ :=
        LoadSchedMigrateTask_error_of_missing ev
          (newThreadTransitionSetBuilder sb) hmiss
      refine ⟨f, by rw [e1]; exact hf, hm, ?_⟩
      rw [threadTransitions_dispatch _ ev hclip _ hlk]
      simp [herr]
    · by_cases e2 : ev.Name = "sched_switch"
      · have hlk : DefaultEventLoaders.lookup ev.Name =
            some LoadSchedSwitch := by
          simp [DefaultEventLoaders, List.lookup, e2]
        rw [e2] at hmiss
        obtain ⟨f, hf, hm, herr⟩ := LoadSwitchData_error_of_missing ev hmiss
        refine ⟨f, by rw [e2]; exact hf, hm, ?_⟩
        rw [threadTransitions_dispatch _ ev hclip _ hlk]
        have herr2 := (LoadSchedSwitch_error_iff ev
          (newThreadTransitionSetBuilder sb) _).mpr herr
        simp [herr2]
      · by_cases e3 : ev.Name = "sched_wakeup"
        · have hlk : DefaultEventLoaders.lookup ev.Name =
              some LoadSchedWakeup := by
            simp [DefaultEventLoaders, List.lookup, e3]
          rw [e3] at hmiss
          obtain ⟨f, hf, hm, herr⟩ :=
            LoadSchedWakeup_error_of_missing ev
              (newThreadTransitionSetBuilder sb) hmiss
          refine ⟨f, by rw [e3]; exact hf, hm, ?_⟩
          rw [threadTransitions_dispatch _ ev hclip _ hlk]
          simp [herr]
        · by_cases e4 : ev.Name = "sched_wakeup_new"
          · have hlk : DefaultEventLoaders.lookup ev.Name =
                some LoadSchedWakeup := by
              simp [DefaultEventLoaders, List.lookup, e4]
            rw [e4, hwnew] at hmiss
            obtain ⟨f, hf, hm, herr⟩ :=
              LoadSchedWakeup_error_of_missing ev
                (newThreadTransitionSetBuilder sb) hmiss
            refine ⟨f, by rw [e4, hwnew]; exact hf, hm, ?_⟩
            rw [threadTransitions_dispatch _ ev hclip _ hlk]
            simp [herr]
          · have hreq : requiredFields ev.Name = [] := by
              simp [requiredFields, e1, e2, e3, e4]
            rw [hreq] at hmiss
            simp at hmiss
  · intro e he
    by_cases e1 : ev.Name = "sched_migrate_task"
    · have hlk : DefaultEventLoaders.lookup ev.Name =
          some LoadSchedMigrateTask := by
        simp [DefaultEventLoaders, List.lookup, e1]
      rw [threadTransitions_dispatch _ ev hclip _ hlk] at he
      cases hr : LoadSchedMigrateTask ev (newThreadTransitionSetBuilder sb) with
      | error e2 =>
        simp [hr] at he
        subst he
        obtain ⟨f, hf, hm, hE⟩ :=
          LoadSchedMigrateTask_error_spec ev _ e2 hr
        exact ⟨f, by rw [e1]; exact hf, hm, hE⟩
      | ok t => simp [hr] at he
    · by_cases e2 : ev.Name = "sched_switch"
      · have hlk : DefaultEventLoaders.lookup ev.Name =
            some LoadSchedSwitch := by
          simp [DefaultEventLoaders, List.lookup, e2]
        rw [threadTransitions_dispatch _ ev hclip _ hlk] at he
        cases hr : LoadSchedSwitch ev (newThreadTransitionSetBuilder sb) with
        | error e3 =>
          simp [hr] at he
          subst he
          obtain ⟨f, hf, hm, hE⟩ := LoadSwitchData_error_spec ev e3
            ((LoadSchedSwitch_error_iff ev _ e3).mp hr)
          exact ⟨f, by rw [e2]; exact hf, hm, hE⟩
        | ok t => simp [hr] at he
      · by_cases e3 : ev.Name = "sched_wakeup"
        · have hlk : DefaultEventLoaders.lookup ev.Name =
              some LoadSchedWakeup := by
            simp [DefaultEventLoaders, List.lookup, e3]
          rw [threadTransitions_dispatch _ ev hclip _ hlk] at he
          cases hr : LoadSchedWakeup ev (newThreadTransitionSetBuilder sb) with
          | error e4 =>
            simp [hr] at he
            subst he
            obtain ⟨f, hf, hm, hE⟩ := LoadSchedWakeup_error_spec ev _ e4 hr
            exact ⟨f, by rw [e3]; exact hf, hm, hE⟩
          | ok t => simp [hr] at he
        · by_cases e4 : ev.Name = "sched_wakeup_new"
          · have hlk : DefaultEventLoaders.lookup ev.Name =
                some LoadSchedWakeup := by
              simp [DefaultEventLoaders, List.lookup, e4]
            rw [threadTransitions_dispatch _ ev hclip _ hlk] at he
            cases hr : LoadSchedWakeup ev (newThreadTransitionSetBuilder sb) with
            | error e5 =>
              simp [hr] at he
              subst he
              obtain ⟨f, hf, hm, hE⟩ := LoadSchedWakeup_error_spec ev _ e5 hr
              exact ⟨f, by rw [e4, hwnew]; exact hf, hm, hE⟩
            | ok t => simp [hr] at he
          · have hlk : DefaultEventLoaders.lookup ev.Name = none := by
              simp [DefaultEventLoaders, List.lookup,
                beq_eq_false_iff_ne.mpr e1, beq_eq_false_iff_ne.mpr e2,
                beq_eq_false_iff_ne.mpr e3, beq_eq_false_iff_ne.mpr e4]
            simp [eventLoader.threadTransitions, hclip, hlk] at he
  · intro hname
    have hlk : SwitchOnlyLoaders.lookup ev.Name =
        some LoadSchedSwitchWithSynthetics := by
      simp [SwitchOnlyLoaders, List.lookup, hname]
    constructor
    · intro hmiss
      rw [hname] at hmiss
      obtain ⟨f, hf, hm, herr⟩ := LoadSwitchData_error_of_missing ev hmiss
      refine ⟨f, by rw [hname]; exact hf, hm, ?_⟩
      rw [threadTransitions_dispatch _ ev hclip _ hlk]
      have herr2 := (LoadSchedSwitchWithSynthetics_error_iff ev
        (newThreadTransitionSetBuilder sb) _).mpr herr
      simp [herr2]
    · intro e he
      rw [threadTransitions_dispatch _ ev hclip _ hlk] at he
      cases hr : LoadSchedSwitchWithSynthetics ev
          (newThreadTransitionSetBuilder sb) with
      | error e2 =>
        simp [hr] at he
        subst he
        obtain ⟨f, hf, hm, hE⟩ := LoadSwitchData_error_spec ev e2
          ((LoadSchedSwitchWithSynthetics_error_iff ev _ e2).mp hr)
        exact ⟨f, by rw [hname]; exact hf, hm, hE⟩
      | ok t => simp [hr] at he

/-- C5 witness: the theorem applied to a concrete non-clipped sched_switch
event that is missing its required prev_state field. -/
theorem C5_missing_field_witness :
    ((∃ f, f ∈ requiredFields evMissing0.Name ∧
        evMissing0.NumberProperties f = none) →
      ∃ f, f ∈ requiredFields evMissing0.Name ∧
        evMissing0.NumberProperties f = none ∧
        ((⟨bank0, DefaultEventLoaders⟩ : eventLoader).threadTransitions
          evMissing0).1 = .error (Err.missingField f evMissing0.Index)) ∧
    (∀ e,
      ((⟨bank0, DefaultEventLoaders⟩ : eventLoader).threadTransitions
        evMissing0).1 = .error e →
      ∃ f, f ∈ requiredFields evMissing0.Name ∧
        evMissing0.NumberProperties f = none ∧
        e = Err.missingField f evMissing0.Index) ∧
    (evMissing0.Name = "sched_switch" →
      ((∃ f, f ∈ requiredFields evMissing0.Name ∧
          evMissing0.NumberProperties f = none) →
        ∃ f, f ∈ requiredFields evMissing0.Name ∧
          evMissing0.NumberProperties f = none ∧
          ((⟨bank0, SwitchOnlyLoaders⟩ : eventLoader).threadTransitions
            evMissing0).1 = .error (Err.missingField f evMissing0.Index)) ∧
      (∀ e,
        ((⟨bank0, SwitchOnlyLoaders⟩ : eventLoader).threadTransitions
          evMissing0).1 = .error e →
        ∃ f, f ∈ requiredFields evMissing0.Name ∧
          evMissing0.NumberProperties f = none ∧
          e = Err.missingField f evMissing0.Index)) :=
  C5_missing_field bank0 evMissing0 rfl

end Sched
